import Mathlib

/-!
Shallow embedding of the device orchestration and type-resolution pipeline of
`src/applib/storage_device.cpp` (class `StorageDevice`), together with proofs
about its claimed properties.

External collaborators (the smartctl executor, the output parsers, the
property processor, configuration lookup and the detected-type name table)
are modelled as an explicit record of oracle functions (`Externals`), since
their code is not part of this translation unit.  All control flow, state
mutation and string matching of `storage_device.cpp` itself is translated
directly.
-/

namespace StorageDeviceModel

/-- Detected device type, from `storage_device_detected_type.h`
(`StorageDeviceDetectedType`). -/
inductive StorageDeviceDetectedType where
  | Unknown
  | NeedsExplicitType
  | AtaAny
  | AtaHdd
  | AtaSsd
  | BasicScsi
  | CdDvd
  | UnsupportedRaid
  | Nvme
  deriving DecidableEq, Repr

/-- Parse status of the device (`StorageDevice::ParseStatus`). -/
inductive ParseStatus where
  | None
  | Basic
  | Full
  deriving DecidableEq, Repr

/-- Tri-state SMART status (`StorageDevice::SmartStatus`). -/
inductive SmartStatus where
  | Enabled
  | Disabled
  | Unsupported
  deriving DecidableEq, Repr

/-- Error kinds of the orchestration layer (`StorageDeviceError`). -/
inductive StorageDeviceError where
  | TestRunning
  | CannotExecuteOnVirtual
  | ExecutionError
  | ParseError
  | CommandFailed
  | CommandUnknownError
  deriving DecidableEq, Repr

/-- Parser capability level (`SmartctlParserType`). -/
inductive SmartctlParserType where
  | Basic
  | Ata
  | Nvme
  | Scsi
  deriving DecidableEq, Repr

/-- Output format of smartctl (`SmartctlOutputFormat`). -/
inductive SmartctlOutputFormat where
  | Text
  | Json
  deriving DecidableEq, Repr

/-- Typed value of a storage property (the value alternatives of
`StorageProperty` that this translation unit reads). -/
inductive PropValue where
  | vBool (b : Bool)
  | vInt (i : Int)
  | vStr (s : String)
  deriving DecidableEq, Repr

/-- One parsed fact (`StorageProperty`): a generic name, a typed value and a
human-readable rendering (`readable_value`). -/
structure StorageProperty where
  generic_name : String
  value : PropValue
  readable_value : String
  deriving DecidableEq, Repr

/-- Typed read of a boolean value (`get_value<bool>`); ill-typed access is a
fatal error in the source and never occurs on well-formed repositories, it is
modelled as `false`. -/
def StorageProperty.get_value_bool (p : StorageProperty) : Bool :=
  match p.value with
  | .vBool b => b
  | _ => false

/-- Typed read of an integer value (`get_value<int64_t>`); ill-typed access is
modelled as `0`. -/
def StorageProperty.get_value_int (p : StorageProperty) : Int :=
  match p.value with
  | .vInt i => i
  | _ => 0

/-- Typed read of a string value (`get_value<string>`); ill-typed access is
modelled as `""`. -/
def StorageProperty.get_value_str (p : StorageProperty) : String :=
  match p.value with
  | .vStr s => s
  | _ => ""

/-- The fact store (`StoragePropertyRepository`): a list of properties.
`lookup_property` returns the first property with the given generic name
(an empty property, modelled as `none`, when absent). -/
structure StoragePropertyRepository where
  props : List StorageProperty
  deriving DecidableEq, Repr

/-- Lookup of a property by generic name
(`StoragePropertyRepository::lookup_property`);
`none` models the empty-property result. -/
def StoragePropertyRepository.lookup_property
    (repo : StoragePropertyRepository) (name : String) : Option StorageProperty :=
  repo.props.find? (fun p => p.generic_name == name)

/-- Empty repository, result of `property_repository_.clear()`. -/
def StoragePropertyRepository.emptyRepo : StoragePropertyRepository := ⟨[]⟩

/-- Device orchestrator state: the data members of `StorageDevice` that the
translated member functions read or write. -/
structure StorageDevice where
  is_virtual : Bool
  device : String
  type_arg : String
  extra_args : List String
  detected_type : StorageDeviceDetectedType
  parse_status : ParseStatus
  basic_output : String
  full_output : String
  property_repository : StoragePropertyRepository
  smart_supported : Option Bool
  smart_enabled : Option Bool
  model_name : Option String
  family_name : Option String
  serial_number : Option String
  size : Option String
  health_property : Option StorageProperty
  test_is_active : Bool
  deriving DecidableEq, Repr

/-- Result type of the fallible member functions
(`hz::ExpectedVoid<StorageDeviceError>`): either success or an error kind with
its human-readable message. -/
abbrev ExpectedVoid := Except (StorageDeviceError × String) Unit

/-- External collaborators of `storage_device.cpp`, modelled as oracles:
the smartctl executor, the parser family, format detection, the property
processor, per-device configuration options, the storable-name table of
detected types and the build environment. -/
structure Externals where
  /-- Source `execute_smartctl(device, device_opts, command_opts)`: captured stdout
  and `none` on clean execution, `some message` on execution failure
  (stdout is captured in both cases). -/
  execute_smartctl : String → List String → List String → String × Option String
  /-- Source `SmartctlParser::detect_output_format`. -/
  detect_output_format : String → Except String SmartctlOutputFormat
  /-- Whether `SmartctlParser::create(type, format)` succeeds. -/
  create_ok : SmartctlParserType → SmartctlOutputFormat → Bool
  /-- Source `SmartctlParser::parse` for a given (type, format) parser: message on
  failure, property repository on success. -/
  parse : SmartctlParserType → SmartctlOutputFormat → String →
    Except String StoragePropertyRepository
  /-- Source `StoragePropertyProcessor::process_properties`. -/
  process_properties : StoragePropertyRepository → StorageDeviceDetectedType →
    StoragePropertyRepository
  /-- Source `SmartctlVersionParser::get_default_format`. -/
  get_default_format : SmartctlParserType → SmartctlOutputFormat
  /-- Source `SmartctlVersionParser::get_default_parser_type`. -/
  get_default_parser_type : StorageDeviceDetectedType → SmartctlParserType
  /-- Source `app_get_device_options(device, type_arg)` from storage settings. -/
  app_get_device_options : String → String → List String
  /-- Source `StorageDeviceDetectedTypeExt::get_by_storable_name` without its
  default argument: `none` when the name is unrecognized. -/
  get_by_storable_name : String → Option StorageDeviceDetectedType
  /-- Source `BuildEnv::is_kernel_linux()`. -/
  is_kernel_linux : Bool

/-- ASCII lowercasing of one character (the patterns matched by this
translation unit are pure ASCII, so this models the case-insensitive `i`
regex flag and `hz::string_to_lower_copy` exactly on the inputs of
interest). -/
def asciiLowerChar (c : Char) : Char :=
  if 'A' ≤ c ∧ c ≤ 'Z' then Char.ofNat (c.toNat + 32) else c

/-- ASCII lowercasing of a character list. -/
def lowerChars (l : List Char) : List Char := l.map asciiLowerChar

/-- ASCII lowercasing of a string. -/
def asciiLower (s : String) : String := ⟨lowerChars s.data⟩

/-- Whether `pat` occurs as a contiguous sublist of `s`. -/
def hasSubList (pat : List Char) : List Char → Bool
  | [] => pat.isEmpty
  | c :: rest => pat.isPrefixOf (c :: rest) || hasSubList pat rest

/-- Splitting a character list on a separator character; used to enumerate
the line starts that the multiline `^` anchor matches. -/
def splitOnChar (sep : Char) : List Char → List (List Char)
  | [] => [[]]
  | c :: rest =>
    let r := splitOnChar sep rest
    if c = sep then [] :: r
    else
      match r with
      | [] => [[c]]
      | h :: t => (c :: h) :: t

/-- Whether the string `s` starts with `pat`. -/
def strStartsWith (s pat : String) : Bool :=
  pat.data.isPrefixOf s.data

/-- Model of `app_regex_partial_match("/.../mi", s)` for a literal pattern
without anchors: case-insensitive substring containment. -/
def regex_ci_contains (s pat : String) : Bool :=
  hasSubList (lowerChars pat.data) (lowerChars s.data)

/-- Model of `app_regex_partial_match("/^pat/mi", s)`: some line of `s`
starts (case-insensitively) with `pat`. With the `m` flag, `^` matches at the
start of the string and right after every newline. -/
def regex_ci_line_start (s pat : String) : Bool :=
  (splitOnChar '\n' s.data).any
    (fun line => (lowerChars pat.data).isPrefixOf (lowerChars line))

/-- The "specify device type" diagnostic test of
`StorageDevice::execute_device_smartctl`
(`app_regex_partial_match("/specify device type with the -d option/mi", ...)`). -/
def matches_specify_type (s : String) : Bool :=
  regex_ci_contains s "specify device type with the -d option"

/-- Message of the `TestRunning` rejection. -/
def testRunningMsg : String := "A test is currently being performed on this drive."

namespace StorageDevice

/-- Source `StorageDevice::clear_outputs`. -/
def clear_outputs (d : StorageDevice) : StorageDevice :=
  { d with basic_output := "", full_output := "" }

/-- Source `StorageDevice::clear_parse_results`: resets the parse status, empties the
property repository and resets the cached values (`smart_supported_`,
`smart_enabled_`, `model_name_`, `family_name_`, `size_`,
`health_property_`).  Note: `serial_number_` is not reset in the source. -/
def clear_parse_results (d : StorageDevice) : StorageDevice :=
  { d with
    parse_status := ParseStatus.None
    property_repository := StoragePropertyRepository.emptyRepo
    smart_supported := none
    smart_enabled := none
    model_name := none
    family_name := none
    size := none
    health_property := none }

/-- Source `StorageDevice::get_device_base`: basename of the device path (empty for
virtual devices, the whole path when it has no slash). -/
def get_device_base (d : StorageDevice) : String :=
  if d.is_virtual then ""
  else ⟨(splitOnChar '/' d.device.data).getLastD d.device.data⟩

/-- Source `StorageDevice::get_device_options`: device-targeting arguments in
ascending priority — the type argument (as `-d <type>`), then caller-supplied
extra arguments, then configuration-sourced options. Virtual devices get an
empty list. -/
def get_device_options (env : Externals) (d : StorageDevice) : List String :=
  if d.is_virtual then []
  else
    (if d.type_arg ≠ "" then ["-d", d.type_arg] else [])
      ++ d.extra_args
      ++ env.app_get_device_options d.device d.type_arg

/-- Source `StorageDevice::get_smart_status`: tri-state SMART status computed from
the two cached optional booleans. -/
def get_smart_status (d : StorageDevice) : SmartStatus :=
  match d.smart_enabled with
  | some true => SmartStatus.Enabled        -- enabled, supported
  | some false =>
    match d.smart_supported with
    | some true => SmartStatus.Disabled     -- disabled, supported
    | some false => SmartStatus.Unsupported -- disabled, unsupported
    | none => SmartStatus.Disabled          -- disabled, support unknown
  | none =>
    match d.smart_supported with
    | some true => SmartStatus.Disabled     -- status unknown, supported
    | some false => SmartStatus.Unsupported -- status unknown, unsupported
    | none => SmartStatus.Unsupported       -- status unknown, support unknown

end StorageDevice

/-- The spec's precedence table of §4.4, written independently from the spec's
words: enabled→Enabled; disabled+supported→Disabled;
disabled+unsupported→Unsupported; disabled+unknown-support→Disabled;
unknown+supported→Disabled; unknown+unsupported→Unsupported;
unknown+unknown→Unsupported. -/
def smartStatusSpecTable (enabled supported : Option Bool) : SmartStatus :=
  match enabled, supported with
  | some true, _ => SmartStatus.Enabled
  | some false, some true => SmartStatus.Disabled
  | some false, some false => SmartStatus.Unsupported
  | some false, none => SmartStatus.Disabled
  | none, some true => SmartStatus.Disabled
  | none, some false => SmartStatus.Unsupported
  | none, none => SmartStatus.Unsupported

/-- HDD/SSD disambiguation by the `rotation_rate` fact
(`storage_device.cpp` lines 594-601 and 625-631): absent or zero ⇒ SSD,
nonzero ⇒ HDD. -/
def rotation_disambiguation (repo : StoragePropertyRepository) : StorageDeviceDetectedType :=
  match repo.lookup_property "rotation_rate" with
  | none => StorageDeviceDetectedType.AtaSsd
  | some rpm_prop =>
    if rpm_prop.get_value_int = 0 then StorageDeviceDetectedType.AtaSsd
    else StorageDeviceDetectedType.AtaHdd

/-- Lowercased `device/protocol` fact, empty when absent
(`storage_device.cpp` lines 609-612). -/
def lowercase_protocol_of (repo : StoragePropertyRepository) : String :=
  match repo.lookup_property "device/protocol" with
  | some device_protocol_prop => asciiLower device_protocol_prop.get_value_str
  | none => ""

/-- Final step of the type resolver (lines 644-646): a still-`Unknown`
classification falls back to `BasicScsi`. -/
def resolve_unknown_fallback (t : StorageDeviceDetectedType) : StorageDeviceDetectedType :=
  if t = StorageDeviceDetectedType.Unknown then StorageDeviceDetectedType.BasicScsi
  else t

/-- Pure value computation of
`StorageDevice::detect_drive_type_from_properties`: the function only reads
the repository, the device basename and the current detected type, and only
writes the detected type (via `set_detected_type`), so it is translated as a
function on the detected-type value. -/
def detect_type_value (env : Externals) (repo : StoragePropertyRepository)
    (base : String) (t0 : StorageDeviceDetectedType) : StorageDeviceDetectedType :=
  -- Branch on the fact set by the Text parser.
  let t1 :=
    match repo.lookup_property "_text_only/custom/parser_detected_drive_type" with
    | some drive_type_prop =>
      let mapped := (env.get_by_storable_name drive_type_prop.get_value_str).getD
        StorageDeviceDetectedType.BasicScsi
      if mapped = StorageDeviceDetectedType.AtaAny then rotation_disambiguation repo
      else mapped
    | none => t0
  -- Branch on the fact set by the JSON parser.
  let t2 :=
    match repo.lookup_property "device/type" with
    | some device_type_prop =>
      let smartctl_type := device_type_prop.get_value_str
      let lowercase_protocol := lowercase_protocol_of repo
      if smartctl_type = "scsi" then
        (if env.is_kernel_linux ∧ strStartsWith base "sr" then StorageDeviceDetectedType.CdDvd
         else StorageDeviceDetectedType.BasicScsi)
      else if smartctl_type = "sat" ∨ lowercase_protocol = "ata" then
        rotation_disambiguation repo
      else if smartctl_type = "nvme" ∨ lowercase_protocol = "nvme" then
        StorageDeviceDetectedType.Nvme
      else t1
    | none => t1
  -- Final fallback: still-`Unknown` becomes `BasicScsi`.
  resolve_unknown_fallback t2

namespace StorageDevice

/-- Source `StorageDevice::detect_drive_type_from_properties`. -/
def detect_drive_type_from_properties (env : Externals)
    (repo : StoragePropertyRepository) (d : StorageDevice) : StorageDevice :=
  { d with detected_type := detect_type_value env repo d.get_device_base d.detected_type }

/-- Source `StorageDevice::read_common_properties`: extracts the common identity
facts from the property repository through fixed-priority lookup chains.
Each chain only writes its own cached field, so the function is translated
as one record update. -/
def read_common_properties (d : StorageDevice) : StorageDevice :=
  let repo := d.property_repository
  { d with
    smart_supported :=
      match repo.lookup_property "smart_support/available" with
      | some prop => some prop.get_value_bool
      | none => d.smart_supported
    smart_enabled :=
      match repo.lookup_property "smart_support/enabled" with
      | some prop => some prop.get_value_bool
      | none => d.smart_enabled
    model_name :=
      match repo.lookup_property "model_name" with
      | some prop => some prop.get_value_str
      | none =>
        match repo.lookup_property "scsi_model_name" with  -- USB flash
        | some prop => some prop.get_value_str
        | none => d.model_name
    family_name :=
      match repo.lookup_property "model_family" with
      | some prop => some prop.get_value_str
      | none =>
        match repo.lookup_property "scsi_vendor" with  -- USB flash
        | some prop => some prop.get_value_str
        | none => d.family_name
    serial_number :=
      match repo.lookup_property "serial_number" with
      | some prop => some prop.get_value_str
      | none => d.serial_number
    -- Size chain. The source declares `prop` in the first condition and
    -- `prop2` in the second, but the second condition tests `!prop.empty()`
    -- — the first, necessarily empty, property — so the fallback branch
    -- body never runs.
    size :=
      let prop := repo.lookup_property "user_capacity/bytes/_short"
      match prop with
      | some p => some p.readable_value
      | none =>
        if prop.isSome then
          match repo.lookup_property "user_capacity/bytes" with
          | some p2 => some p2.readable_value
          | none => d.size
        else d.size }

/-- Source `StorageDevice::execute_device_smartctl`: runs smartctl on the device.
Returns the updated device state, the value of the caller's output slot
(unchanged on virtual devices, the captured stdout otherwise), the result,
and the number of external-process invocations performed. -/
def execute_device_smartctl (env : Externals) (command_options : List String)
    (check_type : Bool) (d : StorageDevice) (slot : String) :
    StorageDevice × String × ExpectedVoid × Nat :=
  if d.is_virtual then
    (d, slot, Except.error (StorageDeviceError.CannotExecuteOnVirtual,
        "Cannot execute smartctl on a virtual device."), 0)
  else
    let (smartctl_output, err) :=
      env.execute_smartctl d.device (get_device_options env d) command_options
    match err with
    | none => (d, smartctl_output, Except.ok (), 1)
    | some message =>
      -- Smartctl defaulting to the wrong type: remember that an explicit
      -- type is needed, so that the caller can retry with "scsi".
      let d :=
        if check_type ∧ d.detected_type = StorageDeviceDetectedType.Unknown
            ∧ matches_specify_type smartctl_output then
          { d with detected_type := StorageDeviceDetectedType.NeedsExplicitType }
        else d
      (d, smartctl_output, Except.error (StorageDeviceError.ExecutionError, message), 1)

/-- Output format used by `parse_basic_data`: the detected format, assuming
`Text` when detection is inconclusive (a warning is logged in the source). -/
def basic_output_format (env : Externals) (s : String) : SmartctlOutputFormat :=
  match env.detect_output_format s with
  | Except.ok fmt => fmt
  | Except.error _ => SmartctlOutputFormat.Text

/-- Success path of `parse_basic_data` after the Basic parser returned
`basic_property_repo`: refine the detected type, set the processed
properties, read the common properties, and set the parse status from the
presence of a model name (lines 179-195). -/
def parse_basic_success_state (env : Externals)
    (basic_property_repo : StoragePropertyRepository) (d : StorageDevice) : StorageDevice :=
  let d := d.detect_drive_type_from_properties env basic_property_repo
  let d := { d with property_repository :=
      env.process_properties basic_property_repo d.detected_type }
  let d := d.read_common_properties
  -- A model field (and its aliases) is a good indication whether there
  -- was any data or not.
  { d with parse_status :=
      if d.model_name.isSome then ParseStatus.Basic else ParseStatus.None }

/-- Source `StorageDevice::parse_basic_data`: parse the basic output with the Basic
parser, then apply the success path. -/
def parse_basic_data (env : Externals) (d : StorageDevice) :
    StorageDevice × ExpectedVoid :=
  -- Clear everything fetched before, except outputs and type.
  let d := d.clear_parse_results
  -- Detect the output format, assuming Text when detection fails.
  let output_format := basic_output_format env d.basic_output
  if env.create_ok SmartctlParserType.Basic output_format = false then
    (d, Except.error (StorageDeviceError.ParseError, "Cannot create parser"))
  else
    match env.parse SmartctlParserType.Basic output_format d.basic_output with
    | Except.error message =>
      (d, Except.error (StorageDeviceError.ParseError,
          "Cannot parse smartctl output: " ++ message))
    | Except.ok basic_property_repo =>
      (parse_basic_success_state env basic_property_repo d, Except.ok ())

/-- Success path of `parse_full_data` after the selected parser returned
`repo`: set the parse status (before the type refinement, lines 405-415),
refine the detected type, set the processed properties and read the common
properties. -/
def parse_full_success_state (env : Externals) (parser_type : SmartctlParserType)
    (repo : StoragePropertyRepository) (d : StorageDevice) : StorageDevice :=
  let d := { d with parse_status :=
      if parser_type = SmartctlParserType.Basic then ParseStatus.Basic
      else ParseStatus.Full }
  let d := d.detect_drive_type_from_properties env repo
  let d := { d with property_repository :=
      env.process_properties repo d.detected_type }
  d.read_common_properties

/-- Source `StorageDevice::parse_full_data`: parse the full output with the parser
of the given type and format. -/
def parse_full_data (env : Externals) (parser_type : SmartctlParserType)
    (format : SmartctlOutputFormat) (d : StorageDevice) :
    StorageDevice × ExpectedVoid :=
  -- Clear everything fetched before, except outputs and disk type.
  let d := d.clear_parse_results
  if env.create_ok parser_type format = false then
    (d, Except.error (StorageDeviceError.ParseError, "Cannot create parser"))
  else
    match env.parse parser_type format d.full_output with
    | Except.ok repo =>
      (parse_full_success_state env parser_type repo d, Except.ok ())
    | Except.error message =>
      (d, Except.error (StorageDeviceError.ParseError,
          "Cannot parse smartctl output: " ++ message))

/-- Source `StorageDevice::parse_any_data_for_virtual`: establish identity with the
Basic parser, then promote to `Full` when the dedicated family parser differs
from the Basic one and succeeds. -/
def parse_any_data_for_virtual (env : Externals) (d : StorageDevice) :
    StorageDevice × ExpectedVoid :=
  -- Clear everything fetched before, except outputs and disk type.
  let d := d.clear_parse_results
  match env.detect_output_format d.full_output with
  | Except.error message =>
    (d, Except.error (StorageDeviceError.ParseError, message))
  | Except.ok fmt =>
    if env.create_ok SmartctlParserType.Basic fmt = false then
      (d, Except.error (StorageDeviceError.ParseError, "Cannot create parser"))
    else
      match env.parse SmartctlParserType.Basic fmt d.full_output with
      | Except.error message =>
        (d, Except.error (StorageDeviceError.ParseError,
            "Cannot parse smartctl output: " ++ message))
      | Except.ok basic_property_repo =>
        let d := d.detect_drive_type_from_properties env basic_property_repo
        let d := { d with property_repository :=
            env.process_properties basic_property_repo d.detected_type }
        let d := d.read_common_properties
        -- Try to parse with a specialized parser based on drive type.
        let parser_type := env.get_default_parser_type d.detected_type
        if parser_type ≠ SmartctlParserType.Basic
            ∧ env.create_ok parser_type fmt = false then
          (d, Except.error (StorageDeviceError.ParseError, "Cannot create parser."))
        else
          let d :=
            if parser_type ≠ SmartctlParserType.Basic then
              match env.parse parser_type fmt d.full_output with
              | Except.ok full_repo =>
                let d := { d with parse_status := ParseStatus.Full }
                { d with property_repository :=
                    env.process_properties full_repo d.detected_type }
              | Except.error _ => d
            else d
          let d :=
            if d.parse_status ≠ ParseStatus.Full then
              -- Only basic data available.
              let d := { d with parse_status := ParseStatus.Basic }
              { d with property_repository :=
                  env.process_properties basic_property_repo d.detected_type }
            else d
          (d, Except.ok ())

end StorageDevice

/-- Outcome of a (possibly retried) fetch invocation: the final device state,
the returned result, the device states at which each attempt started
(outermost first), and the number of external-process invocations. -/
structure FetchLog where
  dev : StorageDevice
  result : ExpectedVoid
  attempts : List StorageDevice
  exec_calls : Nat
  deriving Repr

namespace StorageDevice

/-- The command options of the basic fetch: `--info --health --capabilities`,
plus `--json=o` when the default format of the Basic parser is JSON. -/
def basic_command_options (env : Externals) : List String :=
  let command_options := ["--info", "--health", "--capabilities"]
  if env.get_default_format SmartctlParserType.Basic = SmartctlOutputFormat.Json then
    command_options ++ ["--json=o"]
  else command_options

/-- Ambiguous-type retry condition of `fetch_basic_data_and_parse`
(lines 129-131): execution succeeded or failed with an execution-class error,
the detected type is `NeedsExplicitType`, and no type argument is set. -/
def retry_condition (execute_status : ExpectedVoid) (d : StorageDevice) : Bool :=
  (execute_status.isOk
    || (match execute_status with
        | Except.error (StorageDeviceError.ExecutionError, _) => true
        | _ => false))
  && d.detected_type == StorageDeviceDetectedType.NeedsExplicitType
  && d.type_arg == ""

/-- Source `StorageDevice::fetch_basic_data_and_parse`. The source function recurses
once on the ambiguous-type retry; the recursion is made structural with a
fuel argument (`none` when fuel runs out; the retry proofs show fuel `2`
always suffices). -/
def fetch_basic_data_and_parse (env : Externals) :
    Nat → StorageDevice → Option FetchLog
  | 0, _ => none
  | fuel + 1, d0 =>
    if d0.test_is_active then
      some ⟨d0, Except.error (StorageDeviceError.TestRunning, testRunningMsg), [d0], 0⟩
    else
      -- Clear everything fetched before, including outputs.
      let d := d0.clear_parse_results.clear_outputs
      -- r = (state, captured output, result, executor invocations)
      let r := d.execute_device_smartctl env (basic_command_options env) true d.basic_output
      let d1 := { r.1 with basic_output := r.2.1 }
      if retry_condition r.2.2.1 d1 then
        -- Try again with the explicit "scsi" type.
        match fetch_basic_data_and_parse env fuel
            { d1 with
              type_arg := "scsi"
              detected_type := StorageDeviceDetectedType.BasicScsi } with
        | none => none
        | some log =>
          some ⟨log.dev, log.result, d0 :: log.attempts, r.2.2.2 + log.exec_calls⟩
      else
        let p := d1.parse_basic_data env
        some ⟨p.1, p.2, [d0], r.2.2.2⟩

/-- The full-fetch command options chosen by the `switch` on the detected
type: individually-enumerated flags for the ATA family, the `--xall` umbrella
flag for NVMe and for SCSI/optical/unsupported-RAID, and nothing for the
transient types (which are a `DBG_ASSERT(0)` precondition violation). -/
def full_command_options (d : StorageDevice) : List String :=
  match d.detected_type with
  | StorageDeviceDetectedType.Unknown => []
  | StorageDeviceDetectedType.NeedsExplicitType => []
  | StorageDeviceDetectedType.AtaAny
  | StorageDeviceDetectedType.AtaHdd
  | StorageDeviceDetectedType.AtaSsd =>
    ["--health", "--info", "--get=all", "--capabilities", "--attributes",
     "--format=brief", "--log=xerror,50,error", "--log=xselftest,50,selftest",
     "--log=selective", "--log=directory", "--log=scttemp", "--log=scterc",
     "--log=devstat", "--log=sataphy"]
  | StorageDeviceDetectedType.Nvme => ["--xall"]
  | StorageDeviceDetectedType.BasicScsi
  | StorageDeviceDetectedType.CdDvd
  | StorageDeviceDetectedType.UnsupportedRaid => ["--xall"]

/-- Source `StorageDevice::fetch_full_data_and_parse`: build the type-specific
command options, execute smartctl into a local output buffer, store it as the
full output and parse it. Returns the device state, the result and the number
of external-process invocations. -/
def fetch_full_data_and_parse (env : Externals) (d0 : StorageDevice) :
    StorageDevice × ExpectedVoid × Nat :=
  if d0.test_is_active then
    (d0, Except.error (StorageDeviceError.TestRunning, testRunningMsg), 0)
  else
    -- Clear everything fetched before, including outputs.
    let d := d0.clear_parse_results.clear_outputs
    let command_options := full_command_options d
    let parser_type := env.get_default_parser_type d.detected_type
    let parser_format := env.get_default_format parser_type
    let command_options :=
      if parser_format = SmartctlOutputFormat.Json then command_options ++ ["--json=o"]
      else command_options
    let (d, output, execute_status, n) :=
      d.execute_device_smartctl env command_options false ""
    match execute_status with
    | Except.error e => (d, Except.error e, n)
    | Except.ok _ =>
      let d := { d with full_output := output }
      let (d, r) := d.parse_full_data env parser_type parser_format
      (d, r, n)

/-- Source `StorageDevice::set_smart_enabled`: send the SMART enable/disable command
and classify the response purely from line-anchored patterns in the captured
output. Returns the device state, the result and the number of
external-process invocations. -/
def set_smart_enabled (env : Externals) (b : Bool) (d : StorageDevice) :
    StorageDevice × ExpectedVoid × Nat :=
  if d.test_is_active then
    (d, Except.error (StorageDeviceError.TestRunning, testRunningMsg), 0)
  else
    let on_command := ["--smart=on", "--saveauto=on"]
    let off_command := ["--smart=off"]
    let (d, output, status, n) :=
      d.execute_device_smartctl env (if b then on_command else off_command) false ""
    match status with
    | Except.error e => (d, Except.error e, n)
    | Except.ok _ =>
      -- Search at line start, because the phrases are sometimes present in
      -- other sentences too.
      if regex_ci_line_start output "SMART Enabled"
          ∨ regex_ci_line_start output "SMART Disabled" then
        (d, Except.ok (), n)
      else if regex_ci_line_start output "A mandatory SMART command failed" then
        (d, Except.error (StorageDeviceError.CommandFailed,
            "Mandatory SMART command failed."), n)
      else
        (d, Except.error (StorageDeviceError.CommandUnknownError,
            "Unknown error occurred."), n)

end StorageDevice

/-! ## Concrete fixtures

Concrete devices, repositories and collaborator instances used by the
witnesses and counterexamples. -/

/-- A non-virtual device as constructed by `StorageDevice(dev, false)`:
no type argument, no extra arguments, everything else at its default. -/
def mkDevice (dev : String) : StorageDevice :=
  { is_virtual := false
    device := dev
    type_arg := ""
    extra_args := []
    detected_type := StorageDeviceDetectedType.Unknown
    parse_status := ParseStatus.None
    basic_output := ""
    full_output := ""
    property_repository := StoragePropertyRepository.emptyRepo
    smart_supported := none
    smart_enabled := none
    model_name := none
    family_name := none
    serial_number := none
    size := none
    health_property := none
    test_is_active := false }

/-- A trivial collaborator instance: execution fails with a plain message,
format detection yields Text, parser construction succeeds, parsing fails,
property processing is the identity, configuration adds no options, and no
storable type name is recognized. -/
def env0 : Externals :=
  { execute_smartctl := fun _ _ _ => ("", some "exec failed")
    detect_output_format := fun _ => Except.ok SmartctlOutputFormat.Text
    create_ok := fun _ _ => true
    parse := fun _ _ _ => Except.error "cannot parse"
    process_properties := fun repo _ => repo
    get_default_format := fun _ => SmartctlOutputFormat.Text
    get_default_parser_type := fun _ => SmartctlParserType.Basic
    app_get_device_options := fun _ _ => []
    get_by_storable_name := fun _ => none
    is_kernel_linux := false }

/-- Transient classifications per the spec's data model (§3): `Unknown` and
`NeedsExplicitType`; all other classifications are terminal. -/
def isTransient (t : StorageDeviceDetectedType) : Bool :=
  t == StorageDeviceDetectedType.Unknown || t == StorageDeviceDetectedType.NeedsExplicitType

/-- A device on which a self-test is currently running. -/
def deviceTesting : StorageDevice := { mkDevice "/dev/sda" with test_is_active := true }

/-- A device whose previous basic fetch flagged it as needing an explicit
interface type. -/
def deviceNeedsType : StorageDevice :=
  { mkDevice "/dev/sda" with detected_type := StorageDeviceDetectedType.NeedsExplicitType }

/-- A structured-output repository reporting `device/type = "scsi"` with
protocol `"ATA"` and a 7200 rpm rotation rate. -/
def repoScsiAtaProtocol : StoragePropertyRepository :=
  ⟨[⟨"device/type", PropValue.vStr "scsi", "scsi"⟩,
    ⟨"device/protocol", PropValue.vStr "ATA", "ATA"⟩,
    ⟨"rotation_rate", PropValue.vInt 7200, "7200"⟩]⟩

/-- A structured-output repository for an ATA SSD: `device/type = "sat"` and
no rotation-rate fact. -/
def repoSat : StoragePropertyRepository :=
  ⟨[⟨"device/type", PropValue.vStr "sat", "sat"⟩]⟩

/-- A device with a previously parsed non-empty fact store and cached model
name. -/
def deviceWithRepo : StorageDevice :=
  { mkDevice "/dev/sda" with
    property_repository := ⟨[⟨"model_name", PropValue.vStr "ST1000", "ST1000"⟩]⟩
    model_name := some "ST1000"
    parse_status := ParseStatus.Full }

/-- Collaborators whose parser always succeeds with an empty repository. -/
def envParseEmptyOk : Externals :=
  { env0 with parse := fun _ _ _ => Except.ok StoragePropertyRepository.emptyRepo }

/-- A repository containing only the fallback size key
`user_capacity/bytes` of the size lookup chain. -/
def repoSizeFallback : StoragePropertyRepository :=
  ⟨[⟨"user_capacity/bytes", PropValue.vInt 500107862016,
     "500,107,862,016 bytes [500 GB]"⟩]⟩

/-- A device holding only the fallback size key. -/
def deviceSizeFallback : StorageDevice :=
  { mkDevice "/dev/sda" with property_repository := repoSizeFallback }

/-- A device holding only the fallback model key `scsi_model_name`. -/
def deviceScsiModel : StorageDevice :=
  { mkDevice "/dev/sda" with
    property_repository := ⟨[⟨"scsi_model_name", PropValue.vStr "USB Flash", "USB Flash"⟩]⟩ }

/-- A device holding only the fallback family key `scsi_vendor`. -/
def deviceScsiVendor : StorageDevice :=
  { mkDevice "/dev/sda" with
    property_repository := ⟨[⟨"scsi_vendor", PropValue.vStr "SanDisk", "SanDisk"⟩]⟩ }

/-- Captured output of a successful SMART-enable command. -/
def smartOkOutput : String :=
  "=== START OF ENABLE/DISABLE COMMANDS SECTION ===\nSMART Enabled.\nSMART Attribute Autosave Enabled."

/-- Collaborators whose executor cleanly returns the successful SMART-enable
output. -/
def envSmartEnableOk : Externals :=
  { env0 with execute_smartctl := fun _ _ _ => (smartOkOutput, none) }

/-- Captured output of smartctl refusing to work without an explicit device
type. -/
def specifyTypeOutput : String :=
  "/dev/sda: Unknown device type\nPlease specify device type with the -d option."

/-- Collaborators whose executor always fails with the "specify device type"
diagnostic on stdout. -/
def envAlwaysSpecifyType : Externals :=
  { env0 with execute_smartctl := fun _ _ _ => (specifyTypeOutput, some "smartctl returned error") }

/-! ## Helper lemmas -/

@[simp] theorem clear_parse_results_is_virtual (d : StorageDevice) :
    d.clear_parse_results.is_virtual = d.is_virtual := rfl

@[simp] theorem clear_parse_results_device (d : StorageDevice) :
    d.clear_parse_results.device = d.device := rfl

@[simp] theorem clear_parse_results_type_arg (d : StorageDevice) :
    d.clear_parse_results.type_arg = d.type_arg := rfl

@[simp] theorem clear_parse_results_extra_args (d : StorageDevice) :
    d.clear_parse_results.extra_args = d.extra_args := rfl

@[simp] theorem clear_parse_results_detected_type (d : StorageDevice) :
    d.clear_parse_results.detected_type = d.detected_type := rfl

@[simp] theorem clear_parse_results_test_is_active (d : StorageDevice) :
    d.clear_parse_results.test_is_active = d.test_is_active := rfl

@[simp] theorem clear_parse_results_basic_output (d : StorageDevice) :
    d.clear_parse_results.basic_output = d.basic_output := rfl

@[simp] theorem clear_parse_results_full_output (d : StorageDevice) :
    d.clear_parse_results.full_output = d.full_output := rfl

@[simp] theorem clear_outputs_is_virtual (d : StorageDevice) :
    d.clear_outputs.is_virtual = d.is_virtual := rfl

@[simp] theorem clear_outputs_device (d : StorageDevice) :
    d.clear_outputs.device = d.device := rfl

@[simp] theorem clear_outputs_type_arg (d : StorageDevice) :
    d.clear_outputs.type_arg = d.type_arg := rfl

@[simp] theorem clear_outputs_extra_args (d : StorageDevice) :
    d.clear_outputs.extra_args = d.extra_args := rfl

@[simp] theorem clear_outputs_detected_type (d : StorageDevice) :
    d.clear_outputs.detected_type = d.detected_type := rfl

@[simp] theorem clear_outputs_test_is_active (d : StorageDevice) :
    d.clear_outputs.test_is_active = d.test_is_active := rfl

@[simp] theorem clear_outputs_basic_output (d : StorageDevice) :
    d.clear_outputs.basic_output = "" := rfl

/-- On a non-virtual device whose execution fails, `execute_device_smartctl`
captures the output, optionally marks the device as needing an explicit type,
and reports an `ExecutionError` after one executor invocation. -/
theorem execute_device_smartctl_fail (env : Externals) (opts : List String)
    (ct : Bool) (d : StorageDevice) (slot out msg : String)
    (hv : d.is_virtual = false)
    (hE : env.execute_smartctl d.device (StorageDevice.get_device_options env d) opts
      = (out, some msg)) :
    d.execute_device_smartctl env opts ct slot =
      (if ct ∧ d.detected_type = StorageDeviceDetectedType.Unknown
          ∧ matches_specify_type out = true
       then { d with detected_type := StorageDeviceDetectedType.NeedsExplicitType }
       else d,
       out, Except.error (StorageDeviceError.ExecutionError, msg), 1) := by
  unfold StorageDevice.execute_device_smartctl
  rw [if_neg (by simp [hv]), hE]

/-- On a non-virtual device whose execution succeeds,
`execute_device_smartctl` leaves the state unchanged and returns the captured
output after one executor invocation. -/
theorem execute_device_smartctl_ok (env : Externals) (opts : List String)
    (ct : Bool) (d : StorageDevice) (slot out : String)
    (hv : d.is_virtual = false)
    (hE : env.execute_smartctl d.device (StorageDevice.get_device_options env d) opts
      = (out, none)) :
    d.execute_device_smartctl env opts ct slot = (d, out, Except.ok (), 1) := by
  unfold StorageDevice.execute_device_smartctl
  rw [if_neg (by simp [hv]), hE]

/-- Case analysis of `parse_basic_data`: either it fails with the state just
cleared, or the Basic parser succeeded and the success path ran. -/
theorem parse_basic_data_cases (env : Externals) (d : StorageDevice) :
    (∃ e, d.parse_basic_data env = (d.clear_parse_results, Except.error e))
    ∨ (∃ repo, env.parse SmartctlParserType.Basic
          (StorageDevice.basic_output_format env d.basic_output) d.basic_output
        = Except.ok repo
      ∧ d.parse_basic_data env =
          (StorageDevice.parse_basic_success_state env repo d.clear_parse_results,
            Except.ok ())) := by
  unfold StorageDevice.parse_basic_data
  simp only [clear_parse_results_basic_output]
  by_cases hc : env.create_ok SmartctlParserType.Basic
      (StorageDevice.basic_output_format env d.basic_output) = false
  · rw [if_pos hc]
    exact Or.inl ⟨_, rfl⟩
  · rw [if_neg hc]
    cases hp : env.parse SmartctlParserType.Basic
        (StorageDevice.basic_output_format env d.basic_output) d.basic_output
    · exact Or.inl ⟨_, rfl⟩
    · exact Or.inr ⟨_, rfl, rfl⟩

/-- Case analysis of `parse_full_data`: either it fails with the state just
cleared, or the selected parser succeeded and the success path ran. -/
theorem parse_full_data_cases (env : Externals) (pt : SmartctlParserType)
    (fmt : SmartctlOutputFormat) (d : StorageDevice) :
    (∃ e, d.parse_full_data env pt fmt = (d.clear_parse_results, Except.error e))
    ∨ (∃ repo, env.parse pt fmt d.full_output = Except.ok repo
      ∧ d.parse_full_data env pt fmt =
          (StorageDevice.parse_full_success_state env pt repo d.clear_parse_results,
            Except.ok ())) := by
  unfold StorageDevice.parse_full_data
  simp only [clear_parse_results_full_output]
  by_cases hc : env.create_ok pt fmt = false
  · rw [if_pos hc]
    exact Or.inl ⟨_, rfl⟩
  · rw [if_neg hc]
    cases hp : env.parse pt fmt d.full_output
    · exact Or.inl ⟨_, rfl⟩
    · exact Or.inr ⟨_, rfl, rfl⟩

/-- The success path of the basic parse sets the parse status to `Basic`
exactly when a model name was extracted. -/
theorem parse_basic_success_state_status (env : Externals)
    (repo : StoragePropertyRepository) (d : StorageDevice) :
    (StorageDevice.parse_basic_success_state env repo d).parse_status =
      (if (StorageDevice.parse_basic_success_state env repo d).model_name.isSome
       then ParseStatus.Basic else ParseStatus.None) := rfl

/-- The success path of the full parse sets the parse status from the parser
type alone. -/
theorem parse_full_success_state_status (env : Externals) (pt : SmartctlParserType)
    (repo : StoragePropertyRepository) (d : StorageDevice) :
    (StorageDevice.parse_full_success_state env pt repo d).parse_status =
      (if pt = SmartctlParserType.Basic then ParseStatus.Basic else ParseStatus.Full) := rfl

/-- Source `parse_basic_data` never changes the type argument. -/
theorem parse_basic_data_type_arg (env : Externals) (d : StorageDevice) :
    (d.parse_basic_data env).1.type_arg = d.type_arg := by
  rcases parse_basic_data_cases env d with ⟨e, hE⟩ | ⟨repo, _, hE⟩ <;> rw [hE] <;> rfl

/-! ## C2 — SMART status precedence table -/

/-- C2: for all 9 combinations of smart-enabled ∈ {true, false, unknown} and
smart-supported ∈ {true, false, unknown}, `get_smart_status` returns exactly
the tri-state value of the spec's precedence table (enabled (any support) ⇒
Enabled; disabled+supported ⇒ Disabled; disabled+unsupported ⇒ Unsupported;
disabled+unknown-support ⇒ Disabled; unknown+supported ⇒ Disabled;
unknown+unsupported ⇒ Unsupported; unknown+unknown ⇒ Unsupported). -/
theorem get_smart_status_matches_precedence_table (d : StorageDevice) :
    d.get_smart_status = smartStatusSpecTable d.smart_enabled d.smart_supported := by
  rcases d with ⟨_, _, _, _, _, _, _, _, _, ss, se, _, _, _, _, _, _⟩
  rcases se with _ | (_ | _) <;> rcases ss with _ | (_ | _) <;> rfl

/-! ## C3 — Test-Active guard -/

/-- C3: whenever the test-active flag is true, `fetch_basic_data_and_parse`,
`fetch_full_data_and_parse` and `set_smart_enabled` return a `TestRunning`
error immediately, leave the device state unchanged and perform no
external-process invocation. -/
theorem test_active_guard_rejects_everything (env : Externals) (b : Bool) (fuel : Nat)
    (d : StorageDevice) (h : d.test_is_active = true) :
    StorageDevice.fetch_basic_data_and_parse env (fuel + 1) d =
      some ⟨d, Except.error (StorageDeviceError.TestRunning, testRunningMsg), [d], 0⟩
    ∧ d.fetch_full_data_and_parse env =
      (d, Except.error (StorageDeviceError.TestRunning, testRunningMsg), 0)
    ∧ d.set_smart_enabled env b =
      (d, Except.error (StorageDeviceError.TestRunning, testRunningMsg), 0) := by
  refine ⟨?_, ?_, ?_⟩ <;>
    simp [StorageDevice.fetch_basic_data_and_parse, StorageDevice.fetch_full_data_and_parse,
      StorageDevice.set_smart_enabled, h]

/-- Witness for C3 at a concrete device with the test-active flag set. -/
theorem test_active_guard_rejects_everything_witness :
    StorageDevice.fetch_basic_data_and_parse env0 1 deviceTesting =
      some ⟨deviceTesting, Except.error (StorageDeviceError.TestRunning, testRunningMsg),
        [deviceTesting], 0⟩
    ∧ deviceTesting.fetch_full_data_and_parse env0 =
      (deviceTesting, Except.error (StorageDeviceError.TestRunning, testRunningMsg), 0)
    ∧ deviceTesting.set_smart_enabled env0 true =
      (deviceTesting, Except.error (StorageDeviceError.TestRunning, testRunningMsg), 0) :=
  test_active_guard_rejects_everything env0 true 0 deviceTesting rfl

/-! ## C4 — the resolver and transient classifications -/

/-- Helper: the final fallback of the resolver never yields `Unknown`. -/
theorem resolve_unknown_fallback_ne_unknown (t : StorageDeviceDetectedType) :
    resolve_unknown_fallback t ≠ StorageDeviceDetectedType.Unknown := by
  unfold resolve_unknown_fallback
  split <;> simp_all

/-- C4 counterexample: on a device entering the resolver as
`NeedsExplicitType` with an empty fact repository, the resolver returns the
transient classification `NeedsExplicitType` — the final fallback only
rewrites `Unknown`, so "after it returns the Detected Type is never
transient" is false as stated. -/
theorem resolver_can_return_transient_counterexample :
    (deviceNeedsType.detect_drive_type_from_properties env0
        StoragePropertyRepository.emptyRepo).detected_type
      = StorageDeviceDetectedType.NeedsExplicitType
    ∧ isTransient StorageDeviceDetectedType.NeedsExplicitType = true :=
  ⟨rfl, rfl⟩

/-- C4 amended: the resolver never returns `Unknown` — if the classification
is still `Unknown` after all heuristics it is set to `BasicScsi` — but it can
return the transient `NeedsExplicitType` when the device entered resolution
with that classification and no type-determining fact fires. -/
theorem resolver_never_returns_unknown (env : Externals)
    (repo : StoragePropertyRepository) (d : StorageDevice) :
    (d.detect_drive_type_from_properties env repo).detected_type
      ≠ StorageDeviceDetectedType.Unknown := by
  simp only [StorageDevice.detect_drive_type_from_properties, detect_type_value]
  exact resolve_unknown_fallback_ne_unknown _

/-! ## C5 — ATA disambiguation by rotation rate -/

/-- Helper: the final fallback never rewrites the result of the rotation-rate
disambiguation, which is `AtaSsd` or `AtaHdd`, never `Unknown`. -/
theorem resolve_fallback_rotation (repo : StoragePropertyRepository) :
    resolve_unknown_fallback (rotation_disambiguation repo) = rotation_disambiguation repo := by
  unfold rotation_disambiguation resolve_unknown_fallback
  cases repo.lookup_property "rotation_rate"
  · simp
  · rename_i p
    by_cases hz : p.get_value_int = 0 <;> simp [hz]

/-- C5 counterexample: a repository whose `device/protocol` is
case-insensitively "ata" and whose rotation rate is 7200, yet the resolver
returns `BasicScsi`, not `AtaHdd`: the `device/type = "scsi"` test is checked
before the protocol test, so the protocol alone does not reach the ATA
disambiguation branch. -/
theorem ata_branch_scsi_type_counterexample :
    lowercase_protocol_of repoScsiAtaProtocol = "ata"
    ∧ (repoScsiAtaProtocol.lookup_property "rotation_rate").map
        StorageProperty.get_value_int = some 7200
    ∧ ((mkDevice "/dev/sda").detect_drive_type_from_properties env0
        repoScsiAtaProtocol).detected_type = StorageDeviceDetectedType.BasicScsi
    ∧ StorageDeviceDetectedType.BasicScsi ≠ StorageDeviceDetectedType.AtaHdd :=
  ⟨by decide, rfl, rfl, by decide⟩

/-- C5 amended: the ATA disambiguation result (absent-or-zero rotation rate ⇒
`AtaSsd`, nonzero ⇒ `AtaHdd`) is the resolver's result whenever (a) the
legacy-text drive-type fact maps to `AtaAny` and no structured `device/type`
fact is present, or (b) a structured `device/type` fact is present whose
value is not `"scsi"` and either equals `"sat"` or the lowercased protocol
equals `"ata"`. -/
theorem ata_disambiguation_amended (env : Externals) (repo : StoragePropertyRepository)
    (d : StorageDevice)
    (h : (∃ p, repo.lookup_property "_text_only/custom/parser_detected_drive_type" = some p
          ∧ (env.get_by_storable_name p.get_value_str).getD StorageDeviceDetectedType.BasicScsi
              = StorageDeviceDetectedType.AtaAny
          ∧ repo.lookup_property "device/type" = none)
       ∨ (∃ q, repo.lookup_property "device/type" = some q
          ∧ q.get_value_str ≠ "scsi"
          ∧ (q.get_value_str = "sat" ∨ lowercase_protocol_of repo = "ata"))) :
    (d.detect_drive_type_from_properties env repo).detected_type =
      (match repo.lookup_property "rotation_rate" with
       | none => StorageDeviceDetectedType.AtaSsd
       | some rpm_prop =>
         if rpm_prop.get_value_int = 0 then StorageDeviceDetectedType.AtaSsd
         else StorageDeviceDetectedType.AtaHdd) := by
  have hrot : rotation_disambiguation repo =
      (match repo.lookup_property "rotation_rate" with
       | none => StorageDeviceDetectedType.AtaSsd
       | some rpm_prop =>
         if rpm_prop.get_value_int = 0 then StorageDeviceDetectedType.AtaSsd
         else StorageDeviceDetectedType.AtaHdd) := rfl
  rw [← hrot]
  simp only [StorageDevice.detect_drive_type_from_properties, detect_type_value]
  rcases h with ⟨p, hp, hmap, hdt⟩ | ⟨q, hq, hne, hsat⟩
  · simp only [hp, hdt, hmap]
    simp [resolve_fallback_rotation]
  · simp only [hq]
    rw [if_neg hne, if_pos hsat]
    exact resolve_fallback_rotation repo

/-- Witness for the amended C5: on `device/type = "sat"` with no rotation
rate, the resolver yields `AtaSsd`. -/
theorem ata_disambiguation_amended_witness :
    ((mkDevice "/dev/sdb").detect_drive_type_from_properties env0 repoSat).detected_type
      = StorageDeviceDetectedType.AtaSsd := by
  have h := ata_disambiguation_amended env0 repoSat (mkDevice "/dev/sdb")
    (Or.inr ⟨⟨"device/type", PropValue.vStr "sat", "sat"⟩, rfl, by decide, Or.inl rfl⟩)
  simpa using h

/-! ## C6 — state after a parse failure -/

/-- C6 counterexample: on a device with a previously parsed non-empty fact
store, a failing parse returns the `ParseError` with the parser's message and
leaves Parse Status `None`, but the fact store after the call differs from
the pre-call store — it was emptied by `clear_parse_results` at the start of
the attempt, so "previously cached state is not corrupted" is false as
stated. -/
theorem parse_failure_clears_previous_store_counterexample :
    (deviceWithRepo.parse_basic_data env0).2 =
      Except.error (StorageDeviceError.ParseError, "Cannot parse smartctl output: cannot parse")
    ∧ (deviceWithRepo.parse_basic_data env0).1.property_repository
        ≠ deviceWithRepo.property_repository :=
  ⟨rfl, by decide⟩

/-- C6 amended: when the selected parser fails, the operation returns a
`ParseError` carrying the parser's message and Parse Status is `None`, and
the Fact Store is never replaced with parsed facts — but the device ends in
the state produced by `clear_parse_results` (empty store, reset caches), not
in its pre-call state. -/
theorem parse_failure_amended (env : Externals) (d : StorageDevice) (msg : String)
    (pt : SmartctlParserType) (fmt : SmartctlOutputFormat) :
    (env.create_ok SmartctlParserType.Basic
        (StorageDevice.basic_output_format env d.basic_output) = true →
      env.parse SmartctlParserType.Basic
        (StorageDevice.basic_output_format env d.basic_output) d.basic_output
        = Except.error msg →
      d.parse_basic_data env = (d.clear_parse_results,
        Except.error (StorageDeviceError.ParseError,
          "Cannot parse smartctl output: " ++ msg)))
    ∧ (env.create_ok pt fmt = true →
      env.parse pt fmt d.full_output = Except.error msg →
      d.parse_full_data env pt fmt = (d.clear_parse_results,
        Except.error (StorageDeviceError.ParseError,
          "Cannot parse smartctl output: " ++ msg))) := by
  constructor
  · intro hc hp
    unfold StorageDevice.parse_basic_data
    simp only [clear_parse_results_basic_output, hc, hp]
    simp
  · intro hc hp
    unfold StorageDevice.parse_full_data
    simp only [clear_parse_results_full_output, hc, hp]
    simp

/-- Witness for the amended C6 on a concrete device and failing parser. -/
theorem parse_failure_amended_witness :
    deviceWithRepo.parse_basic_data env0 = (deviceWithRepo.clear_parse_results,
      Except.error (StorageDeviceError.ParseError, "Cannot parse smartctl output: cannot parse"))
    ∧ deviceWithRepo.parse_full_data env0 SmartctlParserType.Ata SmartctlOutputFormat.Text
      = (deviceWithRepo.clear_parse_results,
        Except.error (StorageDeviceError.ParseError, "Cannot parse smartctl output: cannot parse")) :=
  ⟨(parse_failure_amended env0 deviceWithRepo "cannot parse"
      SmartctlParserType.Ata SmartctlOutputFormat.Text).1 rfl rfl,
   (parse_failure_amended env0 deviceWithRepo "cannot parse"
      SmartctlParserType.Ata SmartctlOutputFormat.Text).2 rfl rfl⟩

/-! ## C7 — parse status after a successful parse -/

/-- C7 counterexample: a successful basic parse that extracted no model name
leaves Parse Status `None`, not `Basic` — `parse_basic_data` sets `Basic`
only when a model name (or its alias) was extracted. -/
theorem basic_parse_status_counterexample :
    ((mkDevice "/dev/sda").parse_basic_data envParseEmptyOk).2 = Except.ok ()
    ∧ ((mkDevice "/dev/sda").parse_basic_data envParseEmptyOk).1.parse_status = ParseStatus.None
    ∧ ParseStatus.None ≠ ParseStatus.Basic :=
  ⟨rfl, rfl, by decide⟩

/-- C7 amended: after a successful `parse_basic_data`, Parse Status is
`Basic` exactly when a model name was extracted (else `None`); after a
successful `parse_full_data`, Parse Status is `Basic` when the Basic parser
ran and `Full` when a family-specific parser ran, unconditionally. -/
theorem parse_status_after_success_amended (env : Externals) (d : StorageDevice)
    (pt : SmartctlParserType) (fmt : SmartctlOutputFormat) :
    ((d.parse_basic_data env).2 = Except.ok () →
      (d.parse_basic_data env).1.parse_status =
        (if (d.parse_basic_data env).1.model_name.isSome
         then ParseStatus.Basic else ParseStatus.None))
    ∧ ((d.parse_full_data env pt fmt).2 = Except.ok () →
      (d.parse_full_data env pt fmt).1.parse_status =
        (if pt = SmartctlParserType.Basic then ParseStatus.Basic else ParseStatus.Full)) := by
  constructor
  · intro h
    rcases parse_basic_data_cases env d with ⟨e, hE⟩ | ⟨repo, _, hE⟩
    · rw [hE] at h
      exact absurd h (by simp)
    · rw [hE]
      exact parse_basic_success_state_status env repo d.clear_parse_results
  · intro h
    rcases parse_full_data_cases env pt fmt d with ⟨e, hE⟩ | ⟨repo, _, hE⟩
    · rw [hE] at h
      exact absurd h (by simp)
    · rw [hE]
      exact parse_full_success_state_status env pt repo d.clear_parse_results

/-- Witness for the amended C7: a successful basic parse on a device whose
repository has a model name yields `Basic`; a successful full parse with the
ATA parser yields `Full`. -/
theorem parse_status_after_success_amended_witness :
    ((mkDevice "/dev/sda").parse_basic_data envParseEmptyOk).1.parse_status =
      (if ((mkDevice "/dev/sda").parse_basic_data envParseEmptyOk).1.model_name.isSome
       then ParseStatus.Basic else ParseStatus.None)
    ∧ ((mkDevice "/dev/sda").parse_full_data envParseEmptyOk
        SmartctlParserType.Ata SmartctlOutputFormat.Text).1.parse_status = ParseStatus.Full := by
  refine ⟨(parse_status_after_success_amended envParseEmptyOk (mkDevice "/dev/sda")
    SmartctlParserType.Ata SmartctlOutputFormat.Text).1 rfl, ?_⟩
  have h := (parse_status_after_success_amended envParseEmptyOk (mkDevice "/dev/sda")
    SmartctlParserType.Ata SmartctlOutputFormat.Text).2 rfl
  simpa using h

/-! ## C9 — common-property lookup chains -/

/-- C9, behaviour of the code at the failing input: with a repository holding
only the fallback size key `user_capacity/bytes`, `read_common_properties`
leaves the cached size unset — the source tests the (empty) first lookup
`prop` instead of `prop2` in the fallback condition — while the analogous
model and family fallback chains do set their fields. -/
theorem size_fallback_key_ignored :
    repoSizeFallback.lookup_property "user_capacity/bytes/_short" = none
    ∧ (repoSizeFallback.lookup_property "user_capacity/bytes").isSome = true
    ∧ deviceSizeFallback.read_common_properties.size = none
    ∧ deviceScsiModel.read_common_properties.model_name = some "USB Flash"
    ∧ deviceScsiVendor.read_common_properties.family_name = some "SanDisk" :=
  ⟨rfl, rfl, rfl, rfl, rfl⟩

/-! ## C10 — unconditional clearing before every parse attempt -/

/-- Helper: `parse_any_data_for_virtual` either fails with exactly the
cleared state, succeeds, or some parser construction is invalid. -/
theorem parse_any_data_cases (env : Externals) (d : StorageDevice) :
    (∃ e, d.parse_any_data_for_virtual env = (d.clear_parse_results, Except.error e))
    ∨ (∃ st, d.parse_any_data_for_virtual env = (st, Except.ok ()))
    ∨ (∃ pt2 fmt2, env.create_ok pt2 fmt2 = false) := by
  simp only [StorageDevice.parse_any_data_for_virtual]
  split
  · exact Or.inl ⟨_, rfl⟩
  · split
    · exact Or.inl ⟨_, rfl⟩
    · split
      · exact Or.inl ⟨_, rfl⟩
      · split
        · rename_i hcond
          exact Or.inr (Or.inr ⟨_, _, hcond.2⟩)
        · exact Or.inr (Or.inl ⟨_, rfl⟩)

/-- C10: every parse entry point clears the parse results before parsing:
`clear_parse_results` empties the property repository, resets Parse Status to
`None` and resets the cached smart-supported, smart-enabled, model, family,
size and health values; consequently each of `parse_basic_data`,
`parse_full_data` and `parse_any_data_for_virtual`, when it fails, leaves the
device exactly in the cleared state rather than its pre-call state. -/
theorem clear_before_parse (env : Externals) (d : StorageDevice)
    (pt : SmartctlParserType) (fmt : SmartctlOutputFormat)
    (e1 e2 e3 : StorageDeviceError × String)
    (hcr : ∀ pt2 fmt2, env.create_ok pt2 fmt2 = true) :
    (d.clear_parse_results.property_repository = StoragePropertyRepository.emptyRepo
      ∧ d.clear_parse_results.parse_status = ParseStatus.None
      ∧ d.clear_parse_results.smart_supported = none
      ∧ d.clear_parse_results.smart_enabled = none
      ∧ d.clear_parse_results.model_name = none
      ∧ d.clear_parse_results.family_name = none
      ∧ d.clear_parse_results.size = none
      ∧ d.clear_parse_results.health_property = none)
    ∧ ((d.parse_basic_data env).2 = Except.error e1 →
        (d.parse_basic_data env).1 = d.clear_parse_results)
    ∧ ((d.parse_full_data env pt fmt).2 = Except.error e2 →
        (d.parse_full_data env pt fmt).1 = d.clear_parse_results)
    ∧ ((d.parse_any_data_for_virtual env).2 = Except.error e3 →
        (d.parse_any_data_for_virtual env).1 = d.clear_parse_results) := by
  refine ⟨⟨rfl, rfl, rfl, rfl, rfl, rfl, rfl, rfl⟩, ?_, ?_, ?_⟩
  · intro h
    rcases parse_basic_data_cases env d with ⟨e, hE⟩ | ⟨repo, _, hE⟩
    · rw [hE]
    · rw [hE] at h
      simp at h
  · intro h
    rcases parse_full_data_cases env pt fmt d with ⟨e, hE⟩ | ⟨repo, _, hE⟩
    · rw [hE]
    · rw [hE] at h
      simp at h
  · intro h
    rcases parse_any_data_cases env d with ⟨e, hE⟩ | ⟨st, hE⟩ | ⟨pt2, fmt2, hcf⟩
    · rw [hE]
    · rw [hE] at h
      simp at h
    · rw [hcr pt2 fmt2] at hcf
      exact absurd hcf (by simp)

/-- Witness for C10: the failing parse on a concrete device with previously
cached state ends in exactly the cleared state. -/
theorem clear_before_parse_witness :
    (deviceWithRepo.parse_basic_data env0).1 = deviceWithRepo.clear_parse_results :=
  (clear_before_parse env0 deviceWithRepo SmartctlParserType.Ata SmartctlOutputFormat.Text
    (StorageDeviceError.ParseError, "Cannot parse smartctl output: cannot parse")
    (StorageDeviceError.ParseError, "Cannot parse smartctl output: cannot parse")
    (StorageDeviceError.ParseError, "Cannot parse smartctl output: cannot parse")
    (fun _ _ => rfl)).2.1 rfl

/-! ## C8 — SMART toggle response classification -/

/-- C8: on a clean execution of the SMART toggle command, the operation
succeeds exactly when some line of the captured output starts
(case-insensitively) with "SMART Enabled" or "SMART Disabled"; otherwise a
line starting with "A mandatory SMART command failed" yields `CommandFailed`
and anything else yields `CommandUnknownError` — success is never inferred
from the exit status alone. -/
theorem smart_toggle_classification (env : Externals) (b : Bool) (d : StorageDevice)
    (out : String)
    (hv : d.is_virtual = false) (ht : d.test_is_active = false)
    (hex : env.execute_smartctl d.device (StorageDevice.get_device_options env d)
        (if b then ["--smart=on", "--saveauto=on"] else ["--smart=off"]) = (out, none)) :
    ((d.set_smart_enabled env b).2.1 = Except.ok ()
      ↔ (regex_ci_line_start out "SMART Enabled"
          || regex_ci_line_start out "SMART Disabled") = true)
    ∧ ((regex_ci_line_start out "SMART Enabled"
          || regex_ci_line_start out "SMART Disabled") = false →
        regex_ci_line_start out "A mandatory SMART command failed" = true →
        (d.set_smart_enabled env b).2.1 =
          Except.error (StorageDeviceError.CommandFailed, "Mandatory SMART command failed."))
    ∧ ((regex_ci_line_start out "SMART Enabled"
          || regex_ci_line_start out "SMART Disabled") = false →
        regex_ci_line_start out "A mandatory SMART command failed" = false →
        (d.set_smart_enabled env b).2.1 =
          Except.error (StorageDeviceError.CommandUnknownError, "Unknown error occurred.")) := by
  have hres : (d.set_smart_enabled env b).2.1 =
      (if regex_ci_line_start out "SMART Enabled" ∨ regex_ci_line_start out "SMART Disabled"
       then (Except.ok () : ExpectedVoid)
       else if regex_ci_line_start out "A mandatory SMART command failed"
       then Except.error (StorageDeviceError.CommandFailed, "Mandatory SMART command failed.")
       else Except.error (StorageDeviceError.CommandUnknownError, "Unknown error occurred.")) := by
    simp only [StorageDevice.set_smart_enabled]
    rw [if_neg (by simp [ht])]
    rw [execute_device_smartctl_ok env
      (if b then ["--smart=on", "--saveauto=on"] else ["--smart=off"]) false d "" out hv hex]
    dsimp only
    split
    · rfl
    · split <;> rfl
  refine ⟨?_, ?_, ?_⟩
  · rw [hres]
    by_cases h1 : regex_ci_line_start out "SMART Enabled" = true
        ∨ regex_ci_line_start out "SMART Disabled" = true
    · rw [if_pos h1]
      simp [Bool.or_eq_true, h1]
    · rw [if_neg h1]
      have h1b : ((regex_ci_line_start out "SMART Enabled"
          || regex_ci_line_start out "SMART Disabled") = true) ↔ False := by
        simp only [Bool.or_eq_true]
        exact iff_false_intro h1
      rw [h1b]
      simp only [iff_false]
      split <;> simp
  · intro h1 h2
    rw [hres]
    rw [if_neg (by simpa [Bool.or_eq_true] using h1)]
    rw [if_pos h2]
  · intro h1 h2
    rw [hres]
    rw [if_neg (by simpa [Bool.or_eq_true] using h1)]
    rw [if_neg (by simp [h2])]

/-- Witness for C8: a clean execution whose output contains the line "SMART
Enabled." yields success. -/
theorem smart_toggle_classification_witness :
    ((mkDevice "/dev/sda").set_smart_enabled envSmartEnableOk true).2.1 = Except.ok () :=
  (smart_toggle_classification envSmartEnableOk true (mkDevice "/dev/sda") smartOkOutput
    rfl rfl rfl).1.mpr (by decide)

/-! ## C1 — ambiguous-type retry fires exactly once -/

/-- Helper: one unfolding of the basic fetch when no test is active. -/
theorem fetch_step (env : Externals) (fuel : Nat) (d0 : StorageDevice)
    (ht : d0.test_is_active = false) :
    StorageDevice.fetch_basic_data_and_parse env (fuel + 1) d0 =
      (let d := d0.clear_parse_results.clear_outputs
       let r := d.execute_device_smartctl env (StorageDevice.basic_command_options env)
         true d.basic_output
       let d1 := { r.1 with basic_output := r.2.1 }
       if StorageDevice.retry_condition r.2.2.1 d1 then
         match StorageDevice.fetch_basic_data_and_parse env fuel
             { d1 with
               type_arg := "scsi"
               detected_type := StorageDeviceDetectedType.BasicScsi } with
         | none => none
         | some log => some ⟨log.dev, log.result, d0 :: log.attempts, r.2.2.2 + log.exec_calls⟩
       else
         let p := d1.parse_basic_data env
         some ⟨p.1, p.2, [d0], r.2.2.2⟩) := by
  simp only [StorageDevice.fetch_basic_data_and_parse]
  rw [if_neg (by simp [ht])]

/-- C1: for a non-virtual device with no interface-type override and an
`Unknown` classification, against an executor that always fails and always
prints the "specify device type" diagnostic, the ambiguous-type retry fires
exactly once — the fetch performs exactly two attempts, the second attempt
starts with the override set to "scsi" and the Detected Type set to
`BasicScsi`, the final override is "scsi", and any additional fuel yields the
same outcome (the second attempt never re-enters the retry branch, because
its override is non-empty). -/
theorem ambiguous_type_single_retry (env : Externals) (d : StorageDevice)
    (hv : d.is_virtual = false) (ht : d.test_is_active = false)
    (harg : d.type_arg = "") (hdt : d.detected_type = StorageDeviceDetectedType.Unknown)
    (hex : ∀ dev dopts opts, (env.execute_smartctl dev dopts opts).2.isSome = true
        ∧ matches_specify_type (env.execute_smartctl dev dopts opts).1 = true) :
    ∃ log d1, StorageDevice.fetch_basic_data_and_parse env 2 d = some log
      ∧ log.attempts = [d, d1]
      ∧ d1.type_arg = "scsi"
      ∧ d1.detected_type = StorageDeviceDetectedType.BasicScsi
      ∧ log.dev.type_arg = "scsi"
      ∧ (∀ fuel, StorageDevice.fetch_basic_data_and_parse env (fuel + 2) d = some log) := by
  -- First attempt: the executor fails with the diagnostic.
  obtain ⟨hs1, hm1⟩ := hex (d.clear_parse_results.clear_outputs).device
    (StorageDevice.get_device_options env (d.clear_parse_results.clear_outputs))
    (StorageDevice.basic_command_options env)
  rcases hE1 : env.execute_smartctl (d.clear_parse_results.clear_outputs).device
      (StorageDevice.get_device_options env (d.clear_parse_results.clear_outputs))
      (StorageDevice.basic_command_options env) with ⟨out1, err1⟩
  rw [hE1] at hs1 hm1
  dsimp only at hs1 hm1
  obtain ⟨msg1, rfl⟩ := Option.isSome_iff_exists.mp hs1
  have hvc : (d.clear_parse_results.clear_outputs).is_virtual = false := by simp [hv]
  have hdtc : (d.clear_parse_results.clear_outputs).detected_type
      = StorageDeviceDetectedType.Unknown := by simp [hdt]
  have hexec1 : (d.clear_parse_results.clear_outputs).execute_device_smartctl env
      (StorageDevice.basic_command_options env) true
      (d.clear_parse_results.clear_outputs).basic_output
      = ({ d.clear_parse_results.clear_outputs with
            detected_type := StorageDeviceDetectedType.NeedsExplicitType },
         out1, Except.error (StorageDeviceError.ExecutionError, msg1), 1) := by
    rw [execute_device_smartctl_fail env (StorageDevice.basic_command_options env) true
      (d.clear_parse_results.clear_outputs)
      (d.clear_parse_results.clear_outputs).basic_output out1 msg1 hvc hE1]
    rw [if_pos ⟨rfl, hdtc, hm1⟩]
  have hretry1 : StorageDevice.retry_condition
      (Except.error (StorageDeviceError.ExecutionError, msg1))
      { { d.clear_parse_results.clear_outputs with
            detected_type := StorageDeviceDetectedType.NeedsExplicitType } with
          basic_output := out1 } = true := by
    simp [StorageDevice.retry_condition, harg]
  -- Second attempt: the executor fails again, but the type is already set.
  obtain ⟨hs2, hm2⟩ := hex
    (({ { { d.clear_parse_results.clear_outputs with
            detected_type := StorageDeviceDetectedType.NeedsExplicitType } with
          basic_output := out1 } with
        type_arg := "scsi"
        detected_type := StorageDeviceDetectedType.BasicScsi
      } : StorageDevice).clear_parse_results.clear_outputs).device
    (StorageDevice.get_device_options env
      (({ { { d.clear_parse_results.clear_outputs with
            detected_type := StorageDeviceDetectedType.NeedsExplicitType } with
          basic_output := out1 } with
        type_arg := "scsi"
        detected_type := StorageDeviceDetectedType.BasicScsi
      } : StorageDevice).clear_parse_results.clear_outputs))
    (StorageDevice.basic_command_options env)
  rcases hE2 : env.execute_smartctl
      (({ { { d.clear_parse_results.clear_outputs with
            detected_type := StorageDeviceDetectedType.NeedsExplicitType } with
          basic_output := out1 } with
        type_arg := "scsi"
        detected_type := StorageDeviceDetectedType.BasicScsi
      } : StorageDevice).clear_parse_results.clear_outputs).device
      (StorageDevice.get_device_options env
        (({ { { d.clear_parse_results.clear_outputs with
            detected_type := StorageDeviceDetectedType.NeedsExplicitType } with
          basic_output := out1 } with
        type_arg := "scsi"
        detected_type := StorageDeviceDetectedType.BasicScsi
      } : StorageDevice).clear_parse_results.clear_outputs))
      (StorageDevice.basic_command_options env) with ⟨out2, err2⟩
  rw [hE2] at hs2 hm2
  dsimp only at hs2 hm2
  obtain ⟨msg2, rfl⟩ := Option.isSome_iff_exists.mp hs2
  have hvc2 : (({ { { d.clear_parse_results.clear_outputs with
            detected_type := StorageDeviceDetectedType.NeedsExplicitType } with
          basic_output := out1 } with
        type_arg := "scsi"
        detected_type := StorageDeviceDetectedType.BasicScsi
      } : StorageDevice).clear_parse_results.clear_outputs).is_virtual = false := by
    simp [hv]
  have hexec2 : (({ { { d.clear_parse_results.clear_outputs with
            detected_type := StorageDeviceDetectedType.NeedsExplicitType } with
          basic_output := out1 } with
        type_arg := "scsi"
        detected_type := StorageDeviceDetectedType.BasicScsi
      } : StorageDevice).clear_parse_results.clear_outputs).execute_device_smartctl env
      (StorageDevice.basic_command_options env) true
      (({ { { d.clear_parse_results.clear_outputs with
            detected_type := StorageDeviceDetectedType.NeedsExplicitType } with
          basic_output := out1 } with
        type_arg := "scsi"
        detected_type := StorageDeviceDetectedType.BasicScsi
      } : StorageDevice).clear_parse_results.clear_outputs).basic_output
      = (({ { { d.clear_parse_results.clear_outputs with
            detected_type := StorageDeviceDetectedType.NeedsExplicitType } with
          basic_output := out1 } with
        type_arg := "scsi"
        detected_type := StorageDeviceDetectedType.BasicScsi
      } : StorageDevice).clear_parse_results.clear_outputs,
         out2, Except.error (StorageDeviceError.ExecutionError, msg2), 1) := by
    rw [execute_device_smartctl_fail env (StorageDevice.basic_command_options env) true
      _ _ out2 msg2 hvc2 hE2]
    rw [if_neg (by simp)]
  have hretry2 : StorageDevice.retry_condition
      (Except.error (StorageDeviceError.ExecutionError, msg2))
      { ({ { { d.clear_parse_results.clear_outputs with
            detected_type := StorageDeviceDetectedType.NeedsExplicitType } with
          basic_output := out1 } with
        type_arg := "scsi"
        detected_type := StorageDeviceDetectedType.BasicScsi
      } : StorageDevice).clear_parse_results.clear_outputs with
          basic_output := out2 } = false := by
    simp [StorageDevice.retry_condition]
  have hsecond : ∀ f, StorageDevice.fetch_basic_data_and_parse env (f + 1)
      ({ { { d.clear_parse_results.clear_outputs with
            detected_type := StorageDeviceDetectedType.NeedsExplicitType } with
          basic_output := out1 } with
        type_arg := "scsi"
        detected_type := StorageDeviceDetectedType.BasicScsi
      } : StorageDevice)
      = some ⟨(StorageDevice.parse_basic_data env
          { ({ { { d.clear_parse_results.clear_outputs with
                detected_type := StorageDeviceDetectedType.NeedsExplicitType } with
              basic_output := out1 } with
            type_arg := "scsi"
            detected_type := StorageDeviceDetectedType.BasicScsi
          } : StorageDevice).clear_parse_results.clear_outputs with
              basic_output := out2 }).1,
        (StorageDevice.parse_basic_data env
          { ({ { { d.clear_parse_results.clear_outputs with
                detected_type := StorageDeviceDetectedType.NeedsExplicitType } with
              basic_output := out1 } with
            type_arg := "scsi"
            detected_type := StorageDeviceDetectedType.BasicScsi
          } : StorageDevice).clear_parse_results.clear_outputs with
              basic_output := out2 }).2,
        [{ { { d.clear_parse_results.clear_outputs with
              detected_type := StorageDeviceDetectedType.NeedsExplicitType } with
            basic_output := out1 } with
          type_arg := "scsi"
          detected_type := StorageDeviceDetectedType.BasicScsi }],
        1⟩ := by
    intro f
    rw [fetch_step env f _ (by simp [ht])]
    dsimp only
    rw [hexec2]
    dsimp only
    rw [if_neg (by simp [StorageDevice.retry_condition])]
  have hmain : ∀ fuel, StorageDevice.fetch_basic_data_and_parse env (fuel + 2) d
      = some ⟨(StorageDevice.parse_basic_data env
          { ({ { { d.clear_parse_results.clear_outputs with
                detected_type := StorageDeviceDetectedType.NeedsExplicitType } with
              basic_output := out1 } with
            type_arg := "scsi"
            detected_type := StorageDeviceDetectedType.BasicScsi
          } : StorageDevice).clear_parse_results.clear_outputs with
              basic_output := out2 }).1,
        (StorageDevice.parse_basic_data env
          { ({ { { d.clear_parse_results.clear_outputs with
                detected_type := StorageDeviceDetectedType.NeedsExplicitType } with
              basic_output := out1 } with
            type_arg := "scsi"
            detected_type := StorageDeviceDetectedType.BasicScsi
          } : StorageDevice).clear_parse_results.clear_outputs with
              basic_output := out2 }).2,
        [d, { { { d.clear_parse_results.clear_outputs with
              detected_type := StorageDeviceDetectedType.NeedsExplicitType } with
            basic_output := out1 } with
          type_arg := "scsi"
          detected_type := StorageDeviceDetectedType.BasicScsi }],
        2⟩ := by
    intro fuel
    show StorageDevice.fetch_basic_data_and_parse env ((fuel + 1) + 1) d = _
    rw [fetch_step env (fuel + 1) d ht]
    dsimp only
    rw [hexec1]
    dsimp only
    rw [if_pos hretry1]
    rw [hsecond fuel]
    rfl
  refine ⟨_, _, hmain 0, rfl, rfl, rfl, ?_, hmain⟩
  rw [parse_basic_data_type_arg]
  rfl

/-- Witness for C1 on a concrete device and a concrete always-failing
executor that prints the "specify device type" diagnostic. -/
theorem ambiguous_type_single_retry_witness :
    ∃ log d1, StorageDevice.fetch_basic_data_and_parse envAlwaysSpecifyType 2
        (mkDevice "/dev/sda") = some log
      ∧ log.attempts = [mkDevice "/dev/sda", d1]
      ∧ d1.type_arg = "scsi"
      ∧ d1.detected_type = StorageDeviceDetectedType.BasicScsi
      ∧ log.dev.type_arg = "scsi"
      ∧ (∀ fuel, StorageDevice.fetch_basic_data_and_parse envAlwaysSpecifyType (fuel + 2)
          (mkDevice "/dev/sda") = some log) := by
  have hm : matches_specify_type specifyTypeOutput = true := by decide
  exact ambiguous_type_single_retry envAlwaysSpecifyType (mkDevice "/dev/sda") rfl rfl rfl rfl
    (fun _ _ _ => ⟨rfl, hm⟩)

end StorageDeviceModel
